import Mathlib

/-!
Verification development for the mcp-logic repository: a shallow embedding of
the Prover9 / Mace4 integration layer (input-file synthesis, output
classification and parsing, the formula syntax validator, and the binary
probing done at wrapper construction), together with theorems settling the
frozen specification claims.

Strings manipulated by the Python source are embedded as `List Char` (named
`Str` below); each Python string primitive used by the source (`in`, `find`,
`split`, `rstrip`, `strip`, `endswith`, `int(...)`) gets a faithful
executable counterpart defined here.
-/

set_option maxRecDepth 4096

/-- Embedded string type: Python `str` values are modelled as lists of
characters. -/
abbrev Str := List Char

/-- Convert a Lean string literal to the embedded representation. -/
def strL (s : String) : Str := s.toList

/-- Python whitespace predicate (the characters matched by `str.split()` with
no arguments, `str.strip()` and the regex class `\s` on ASCII input). -/
def pyIsSpace (c : Char) : Bool :=
  c = ' ' || c = '\t' || c = '\n' || c = '\r' || c = '\x0b' || c = '\x0c'

/-- Regex `\w` word-character class on ASCII input: letters, digits,
underscore. -/
def pyIsWordChar (c : Char) : Bool :=
  c.isAlpha || c.isDigit || c = '_'

/-- Index of the first occurrence of `sep` in `s` (Python `s.find(sep)`
restricted to the found case); `none` when `sep` does not occur. -/
def firstIdx (sep : Str) : Str → Option Nat
  | [] => if sep.isEmpty then some 0 else none
  | c :: rest =>
    if sep.isPrefixOf (c :: rest) then some 0
    else (firstIdx sep rest).map (· + 1)

/-- Python substring membership `sep in s`, defined as in CPython via a
successful `find`. -/
def pyIn (sep s : Str) : Bool := (firstIdx sep s).isSome

/-- Python `s.endswith(suffix)`. -/
def pyEndsWith (s suffix : Str) : Bool := suffix.isSuffixOf s

/-- Python `s.rstrip('.')`: remove every trailing period. -/
def pyRstripDots (s : Str) : Str := (s.reverse.dropWhile (· = '.')).reverse

/-- Python `s.lstrip()`: remove leading whitespace. -/
def pyLstrip (s : Str) : Str := s.dropWhile pyIsSpace

/-- Python `s.strip()`: remove leading and trailing whitespace. -/
def pyStrip (s : Str) : Str :=
  ((s.dropWhile pyIsSpace).reverse.dropWhile pyIsSpace).reverse

/-- Decimal rendering of a natural number (Python `str(n)` / f-string
interpolation for a non-negative int). -/
def natStrL (n : Nat) : Str := (Nat.repr n).toList

/-- Python `s.split(sep)` for a non-empty separator: scan left to right,
cutting at each non-overlapping occurrence of `sep`.  `acc` holds the
characters of the current field in reverse. -/
def pySplitAux (sep : Str) : Str → Str → List Str
  | [], acc => [acc.reverse]
  | c :: rest, acc =>
    if h : sep ≠ [] ∧ sep.isPrefixOf (c :: rest) then
      acc.reverse :: pySplitAux sep (List.drop sep.length (c :: rest)) []
    else
      pySplitAux sep rest (c :: acc)
termination_by s _ => s.length
decreasing_by
  · simp only [List.length_drop]
    have hle : sep.length ≤ (c :: rest).length :=
      (List.isPrefixOf_iff_prefix.mp h.2).length_le
    have hpos : 0 < sep.length := List.length_pos.mpr h.1
    omega
  · simp [Nat.lt_succ_self]

/-- Python `s.split(sep)` (non-empty `sep`). -/
def pySplitOn (sep s : Str) : List Str := pySplitAux sep s []

/-- Python `s.split()` with no argument: maximal runs of non-whitespace
characters, empty fields dropped. -/
def pyWsTokens : Str → List Str
  | [] => []
  | c :: rest =>
    if pyIsSpace c then pyWsTokens rest
    else (c :: rest.takeWhile (fun d => !pyIsSpace d)) ::
      pyWsTokens (rest.dropWhile (fun d => !pyIsSpace d))
termination_by s => s.length
decreasing_by
  · simp [Nat.lt_succ_self]
  · have h : (rest.dropWhile (fun d => !pyIsSpace d)).length ≤ rest.length :=
      (List.dropWhile_sublist (fun d => !pyIsSpace d)).length_le
    simp only [List.length_cons]
    omega

/-- Digit-string parsing underlying Python `int(...)`: decimal digits with
single underscores allowed between digits.  `acc` is the value so far,
`prevDigit` records whether the previous character was a digit. -/
def pyParseDigitsAux : Str → Nat → Bool → Option Nat
  | [], acc, prevDigit => if prevDigit then some acc else none
  | c :: rest, acc, prevDigit =>
    if c.isDigit then pyParseDigitsAux rest (acc * 10 + (c.toNat - 48)) true
    else if c = '_' && prevDigit then pyParseDigitsAux rest acc false
    else none

/-- Python `int(token)` on a whitespace-free token: optional sign, then
decimal digits (with the underscore rule); `none` when `int` would raise. -/
def pyParseInt (s : Str) : Option Int :=
  match s with
  | '+' :: rest => (pyParseDigitsAux rest 0 false).map Int.ofNat
  | '-' :: rest => (pyParseDigitsAux rest 0 false).map (fun n => -(Int.ofNat n))
  | rest => (pyParseDigitsAux rest 0 false).map Int.ofNat

/-- Python `"\n".join(lines)`. -/
def pyJoinLines (lines : List Str) : Str := List.intercalate (strL "\n") lines

example : pySplitOn (strL "b") (strL "abc") = [strL "a", strL "c"] := by
  simp [pySplitOn, pySplitAux, strL]
example : pyIn (strL "bc") (strL "abcd") = true := by decide
example : pyIn (strL "bd") (strL "abcd") = false := by decide
example : pyRstripDots (strL "P(b)...") = strL "P(b)" := by decide
example : pyWsTokens (strL " a bc  d ") = [strL "a", strL "bc", strL "d"] := by
  simp [pyWsTokens, strL, pyIsSpace]
example : pyParseInt (strL "-42") = some (-42) := by decide
example : pyParseInt (strL "4x") = none := by decide
example : pyStrip (strL "  ab c\n") = strL "ab c" := by decide

/-- The field of `s` before the first occurrence of `sep` (all of `s` when
`sep` does not occur): the value of `s.split(sep)[0]`. -/
def takeBeforeFirst (sep s : Str) : Str :=
  match firstIdx sep s with
  | some j => s.take j
  | none => s

theorem firstIdx_nil_of_none {sep : Str} {s : Str}
    (h : firstIdx sep s = none) : sep ≠ [] := by
  intro hsep
  subst hsep
  cases s <;> simp [firstIdx, List.isPrefixOf] at h

theorem pySplitAux_of_firstIdx_none {sep s : Str}
    (h : firstIdx sep s = none) :
    ∀ acc, pySplitAux sep s acc = [acc.reverse ++ s] := by
  induction s with
  | nil => intro acc; simp [pySplitAux]
  | cons c rest ih =>
    intro acc
    cases hp : sep.isPrefixOf (c :: rest) with
    | true => simp [firstIdx, hp] at h
    | false =>
      simp only [firstIdx, hp, Bool.false_eq_true, if_false,
        Option.map_eq_none'] at h
      rw [pySplitAux]
      rw [dif_neg (by simp [hp])]
      rw [ih h]
      simp

theorem pySplitAux_of_firstIdx_some {sep : Str} (hsep : sep ≠ []) :
    ∀ s i acc, firstIdx sep s = some i →
    pySplitAux sep s acc =
      (acc.reverse ++ s.take i) ::
        pySplitAux sep (s.drop (i + sep.length)) [] := by
  intro s
  induction s with
  | nil =>
    intro i acc h
    simp [firstIdx, List.isEmpty_iff, hsep] at h
  | cons c rest ih =>
    intro i acc h
    cases hp : sep.isPrefixOf (c :: rest) with
    | true =>
      simp only [firstIdx, hp, if_true, Option.some.injEq] at h
      subst h
      rw [pySplitAux, dif_pos ⟨hsep, hp⟩]
      simp
    | false =>
      simp only [firstIdx, hp, Bool.false_eq_true, if_false,
        Option.map_eq_some'] at h
      obtain ⟨j, hj, hji⟩ := h
      subst hji
      rw [pySplitAux, dif_neg (by simp [hp])]
      rw [ih j (c :: acc) hj]
      have hd : List.drop (j + 1 + List.length sep) (c :: rest) =
          List.drop (j + List.length sep) rest := by
        have : j + 1 + List.length sep = (j + List.length sep) + 1 := by omega
        rw [this, List.drop_succ_cons]
      rw [List.take_succ_cons, hd]
      simp

theorem pySplitAux_head {sep : Str} (hsep : sep ≠ []) (s acc : Str) :
    (pySplitAux sep s acc).head? =
      some (acc.reverse ++ takeBeforeFirst sep s) := by
  cases h : firstIdx sep s with
  | none =>
    rw [pySplitAux_of_firstIdx_none h]
    simp [takeBeforeFirst, h]
  | some i =>
    rw [pySplitAux_of_firstIdx_some hsep s i acc h]
    simp [takeBeforeFirst, h]

/-- `s.split(sep)[0]` is the text before the first occurrence of `sep`. -/
theorem pySplitOn_headD {sep : Str} (hsep : sep ≠ []) (s d : Str) :
    (pySplitOn sep s).headD d = takeBeforeFirst sep s := by
  rw [List.headD_eq_head?_getD, pySplitOn, pySplitAux_head hsep s []]
  simp

/-- `s.split(sep)[1]` exists exactly when `sep` occurs in `s`, and is then
the text after the first occurrence, cut at the next occurrence. -/
theorem pySplitOn_getElem1 {sep : Str} (hsep : sep ≠ []) (s : Str) :
    (pySplitOn sep s)[1]? =
      (firstIdx sep s).map
        (fun i => takeBeforeFirst sep (s.drop (i + sep.length))) := by
  cases h : firstIdx sep s with
  | none =>
    rw [pySplitOn, pySplitAux_of_firstIdx_none h]
    simp
  | some i =>
    rw [pySplitOn, pySplitAux_of_firstIdx_some hsep s i [] h]
    simp only [Option.map_some']
    rw [List.getElem?_cons_succ]
    rw [← List.head?_eq_getElem?]
    rw [pySplitAux_head hsep _ []]
    simp

/-! ## Input-file builders

`LogicEngine._create_input_file` (server.py) and
`Mace4Wrapper._create_input_file` (mace4_wrapper.py): both terminate each
formula with a period unless it already ends in one, and the Mace4 builder
negates an optional goal for counterexample search. -/

/-- The per-formula termination expression
`p if p.endswith(".") else p + "."` shared by both builders. -/
def pyTerminate (p : Str) : Str :=
  if pyEndsWith p (strL ".") then p else p ++ strL "."

/-- `LogicEngine._create_input_file`: the `content` list of lines (the file
itself is the `"\n"`-join of these). -/
def prover_create_input_lines (premises : List Str) (goal : Str) : List Str :=
  [strL "formulas(assumptions)."] ++
  premises.map pyTerminate ++
  [strL "end_of_list.",
   [],
   strL "formulas(goals).",
   pyTerminate goal,
   strL "end_of_list."]

/-- The full text written by `LogicEngine._create_input_file`. -/
def prover_create_input_content (premises : List Str) (goal : Str) : Str :=
  pyJoinLines (prover_create_input_lines premises goal)

/-- `Mace4Wrapper._create_input_file`: the `content` list of lines.  A goal
of `none`, or an empty goal string (both falsy in `if goal:`), produces no
`formulas(goals)` block; otherwise the goal is stripped of trailing periods,
wrapped in `-(( ... ))` and re-terminated with a single period. -/
def mace4_create_input_lines (premises : List Str) (goal : Option Str)
    (domain_size : Option Nat) : List Str :=
  (match domain_size with
   | some n => [strL "assign(domain_size, " ++ natStrL n ++ strL ")."]
   | none => [strL "assign(domain_size, 2).", strL "assign(end_size, 10)."]) ++
  [strL "assign(max_seconds, 60).", []] ++
  [strL "formulas(assumptions)."] ++
  premises.map pyTerminate ++
  [strL "end_of_list.", []] ++
  (match goal with
   | some g =>
     if g = [] then []
     else [strL "formulas(goals).",
           (strL "-((" ++ pyRstripDots g ++ strL "))") ++ strL ".",
           strL "end_of_list."]
   | none => [])

/-- The full text written by `Mace4Wrapper._create_input_file`. -/
def mace4_create_input_content (premises : List Str) (goal : Option Str)
    (domain_size : Option Nat) : Str :=
  pyJoinLines (mace4_create_input_lines premises goal domain_size)

/-- C1: for every non-empty goal string supplied for counterexample search,
the Mace4 input builder emits a `formulas(goals)` block whose single formula
line is the goal with all trailing periods stripped, wrapped as `-((goal))`,
with a single period re-appended; that block is the final part of the file. -/
theorem c1_mace4_goal_negation (premises : List Str) (ds : Option Nat)
    (g : Str) (hg : g ≠ []) :
    ∃ pre : List Str,
      mace4_create_input_lines premises (some g) ds =
        pre ++ [strL "formulas(goals).",
                strL "-((" ++ pyRstripDots g ++ strL "))" ++ strL ".",
                strL "end_of_list."] := by
  refine ⟨(match ds with
    | some n => [strL "assign(domain_size, " ++ natStrL n ++ strL ")."]
    | none => [strL "assign(domain_size, 2).", strL "assign(end_size, 10)."]) ++
    [strL "assign(max_seconds, 60).", []] ++
    [strL "formulas(assumptions)."] ++
    premises.map pyTerminate ++
    [strL "end_of_list.", []], ?_⟩
  simp [mace4_create_input_lines, hg]

/-- C1 witness: for goal `"P(b)"` the generated Mace4 counterexample input
ends with the goals block containing exactly the line `"-((P(b)))."`, the
joined file text contains the literal `"-((P(b)))"`, and the emitted goal
line is not the bare goal. -/
theorem c1_mace4_goal_negation_witness :
    (∃ pre : List Str,
      mace4_create_input_lines [strL "p(a)"] (some (strL "P(b)")) none =
        pre ++ [strL "formulas(goals).", strL "-((P(b))).",
                strL "end_of_list."])
  ∧ pyIn (strL "-((P(b)))")
      (mace4_create_input_content [strL "p(a)"] (some (strL "P(b)")) none)
      = true
  ∧ strL "-((P(b)))." ≠ strL "P(b)"
  ∧ strL "-((P(b)))." ≠ strL "P(b)." := by
  refine ⟨?_, by decide, by decide, by decide⟩
  have h := c1_mace4_goal_negation [strL "p(a)"] none (strL "P(b)")
    (by decide)
  have heq : strL "-((" ++ pyRstripDots (strL "P(b)") ++ strL "))" ++ strL "."
      = strL "-((P(b)))." := by decide
  rw [heq] at h
  exact h

/-- C6 (amended): in the generated input the premises appear as consecutive
lines in the given order (terminated with `pyTerminate`) and the goal appears
exactly once at its fixed position; a formula not already ending in `.` is
emitted with exactly one appended period (so it ends in `.` but not `..`),
while a formula already ending in `.` is emitted unchanged — hence a line can
end in `..` only when the input formula already did. -/
theorem c6_input_block_termination (premises : List Str) (goal : Str) :
    ((∀ i, ∀ h : i < premises.length,
      (prover_create_input_lines premises goal)[i + 1]? =
        some (pyTerminate premises[i]))
  ∧ (prover_create_input_lines premises goal)[premises.length + 4]? =
      some (pyTerminate goal)
  ∧ (prover_create_input_lines premises goal).length = premises.length + 6)
  ∧ (∀ i, ∀ h : i < premises.length,
      (mace4_create_input_lines premises none none)[i + 5]? =
        some (pyTerminate premises[i]))
  ∧ (∀ p : Str, pyEndsWith p (strL ".") = false →
      pyTerminate p = p ++ strL "." ∧
      pyEndsWith (pyTerminate p) (strL ".") = true ∧
      pyEndsWith (pyTerminate p) (strL "..") = false)
  ∧ (∀ p : Str, pyEndsWith p (strL ".") = true → pyTerminate p = p) := by
  have hdot : strL "." = ['.'] := rfl
  have hdots : strL ".." = ['.', '.'] := rfl
  refine ⟨⟨?_, ?_, ?_⟩, ?_, ?_, ?_⟩
  · intro i h
    simp only [prover_create_input_lines, List.cons_append,
      List.getElem?_cons_succ]
    rw [List.getElem?_append_left (by simpa using h)]
    simp [h]
  · simp only [prover_create_input_lines, List.cons_append,
      List.getElem?_cons_succ]
    rw [List.getElem?_append_right (by simp)]
    simp
  · simp [prover_create_input_lines]
  · intro i h
    simp only [mace4_create_input_lines, List.cons_append, List.nil_append,
      List.append_assoc, List.getElem?_cons_succ]
    rw [List.getElem?_append_left (by simpa using h)]
    simp [h]
  · intro p hp
    have hterm : pyTerminate p = p ++ strL "." := by
      simp [pyTerminate, hp]
    refine ⟨hterm, ?_, ?_⟩
    · rw [hterm, hdot]
      simp [pyEndsWith, List.isSuffixOf_iff_suffix]
    · rw [hterm, hdot, hdots]
      apply Bool.eq_false_iff.mpr
      simp only [pyEndsWith, ne_eq, List.isSuffixOf_iff_suffix]
      intro hsuf
      obtain ⟨t, ht⟩ := hsuf
      have ht' : (t ++ ['.']) ++ ['.'] = p ++ ['.'] := by
        simpa using ht
      have hp' : t ++ ['.'] = p := List.append_cancel_right ht'
      have hx : pyEndsWith p (strL ".") = true := by
        rw [hdot]
        simp only [pyEndsWith, List.isSuffixOf_iff_suffix]
        exact ⟨t, hp'⟩
      rw [hx] at hp
      exact Bool.noConfusion hp
  · intro p hp
    simp [pyTerminate, hp]

/-- C6 counterexample: a premise that already ends in two periods is emitted
unchanged, so its generated formula line ends in `".."` rather than in
exactly one trailing period, contradicting the claim as stated. -/
theorem c6_counterexample :
    (prover_create_input_lines [strL "p(a).."] (strL "q"))[1]? =
      some (strL "p(a)..")
  ∧ pyEndsWith (strL "p(a)..") (strL "..") = true := by decide

/-! ## Prover9 output classification (`LogicEngine._run_prover`)

The body of the `try` block classifies `(stdout, stderr)` by an ordered
chain of marker checks.  In the `"THEOREM PROVED"` branch the source
evaluates `result.stdout.split("PROOF =")[1].split("====")[0].strip()`;
the `[1]` raises `IndexError("list index out of range")` when `"PROOF ="`
does not occur, which the surrounding `except Exception` converts into an
error outcome. -/

/-- The structured outcome dictionaries returned by
`LogicEngine._run_prover`, one constructor per `return` site, holding the
non-constant dictionary fields. -/
inductive PResult where
  | proved (proof complete_output : Str)
  | unprovable (complete_output : Str)
  | errorSyntax (error : Str)
  | errorUnexpected (output error : Str)
  | timeoutRes (reason : Str)
  | errorExn (reason : Str)
deriving DecidableEq

/-- The `"result"` field of the returned dictionary. -/
def PResult.resultTag : PResult → Str
  | .proved .. => strL "proved"
  | .unprovable _ => strL "unprovable"
  | .errorSyntax _ => strL "error"
  | .errorUnexpected .. => strL "error"
  | .timeoutRes _ => strL "timeout"
  | .errorExn _ => strL "error"

/-- `str(results.get("error", ""))`: the `"error"` field where the source
sets one, the empty string otherwise. -/
def PResult.errorField : PResult → Str
  | .errorSyntax e => e
  | .errorUnexpected _ e => e
  | _ => []

/-- `result.stdout.split("PROOF =")[1].split("====")[0].strip()`:
`none` when the `[1]` indexing raises `IndexError`. -/
def prover_extract_proof (stdout : Str) : Option Str :=
  match (pySplitOn (strL "PROOF =") stdout)[1]? with
  | some seg => some (pyStrip ((pySplitOn (strL "====") seg).headD []))
  | none => none

/-- The marker-check chain of `LogicEngine._run_prover` applied to the
captured streams of a completed solver process. -/
def prover_classify (stdout stderr : Str) : PResult :=
  if pyIn (strL "THEOREM PROVED") stdout then
    match prover_extract_proof stdout with
    | some p => .proved p stdout
    | none => .errorExn (strL "list index out of range")
  else if pyIn (strL "SEARCH FAILED") stdout then
    .unprovable stdout
  else if pyIn (strL "Fatal error") stderr then
    .errorSyntax stderr
  else
    .errorUnexpected stdout stderr

/-- Outcome of the `subprocess.run` call: normal completion with captured
streams, expiry of the wall-clock timeout (`subprocess.TimeoutExpired`), or
any other raised exception with its text. -/
inductive ProcOutcome where
  | completed (stdout stderr : Str)
  | timedOut
  | raised (msg : Str)

/-- Exceptions escaping the `try` body of `_run_prover` / `_run_mace4`. -/
inductive PyExn where
  | timeoutExpired
  | generic (msg : Str)

/-- The `try` body of `LogicEngine._run_prover`: classify on completion,
propagate the exception otherwise. -/
def prover_try_body (proc : ProcOutcome) : Except PyExn PResult :=
  match proc with
  | .completed out err => .ok (prover_classify out err)
  | .timedOut => .error .timeoutExpired
  | .raised m => .error (.generic m)

/-- The `except subprocess.TimeoutExpired` / `except Exception as e`
handlers of `LogicEngine._run_prover`. -/
def prover_handlers (t : Nat) : Except PyExn PResult → PResult
  | .ok r => r
  | .error .timeoutExpired =>
    .timeoutRes (strL "Proof search exceeded " ++ natStrL t ++ strL " seconds")
  | .error (.generic m) => .errorExn m

/-- `LogicEngine._run_prover` without the `finally` cleanup: the outcome
returned to the caller for a given process outcome and timeout value. -/
def run_prover (proc : ProcOutcome) (t : Nat) : PResult :=
  prover_handlers t (prover_try_body proc)

/-- State of the transient input artifact: whether it is still on disk and
whether an `unlink` attempt on it raises (permission error, already gone). -/
structure TempFileState where
  present : Bool
  unlinkRaises : Bool
deriving DecidableEq

/-- The `finally` block shared by both runners:
`try: input_path.unlink() except: pass` — the deletion is attempted, and a
raising deletion leaves the state unchanged but is swallowed. -/
def unlink_cleanup (fs : TempFileState) : TempFileState :=
  if fs.unlinkRaises then fs else { fs with present := false }

/-- `LogicEngine._run_prover` with the `finally` cleanup: Python's
`try/except/finally` runs the handlers, then the cleanup, and only then
delivers the already-computed return value. -/
def run_prover_with_cleanup (fs : TempFileState) (proc : ProcOutcome)
    (t : Nat) : PResult × TempFileState :=
  (prover_handlers t (prover_try_body proc), unlink_cleanup fs)

/-! ## Mace4 output parsing and classification (`Mace4Wrapper`) -/

/-- The structured model dictionary built by `Mace4Wrapper._parse_model`.
The source also initialises `predicates` / `functions` / `constants` maps
but never populates them, so they are constant and omitted here. -/
structure Mace4Model where
  domain_size : Option Int
  raw_interpretation : Str
deriving DecidableEq

/-- `int(line.split()[-1])` for a `"DOMAIN SIZE"` line; `none` when the
parse raises.  (The `line.split()[-1]` indexing itself cannot raise here:
the caller only reaches it for lines containing `"DOMAIN SIZE"`, which
therefore have at least one token.) -/
def mace4_last_token_int (line : Str) : Option Int :=
  match (pyWsTokens line).getLast? with
  | some t => pyParseInt t
  | none => none

/-- The domain-size loop of `Mace4Wrapper._parse_model`: every line of the
output containing `"DOMAIN SIZE"` whose final whitespace-delimited token
parses as an integer overwrites the stored value; parse failures keep the
previous value. -/
def mace4_domain_size_fold (output : Str) : Option Int :=
  (pySplitOn (strL "\n") output).foldl
    (fun acc line =>
      if pyIn (strL "DOMAIN SIZE") line then
        match mace4_last_token_int line with
        | some v => some v
        | none => acc
      else acc)
    none

/-- The interpretation-block extraction of `Mace4Wrapper._parse_model`:
the slice from the first `"interpretation("` through the following
`"end_of_list"` inclusive, stripped; every line of the block that strips to
a `function(`/`relation(` beginning is appended again after a newline. -/
def mace4_raw_interpretation (output : Str) : Str :=
  match firstIdx (strL "interpretation(") output with
  | none => []
  | some start =>
    let tail := output.drop start
    match firstIdx (strL "end_of_list") tail with
    | none => []
    | some j =>
      if 0 < j then
        let block := tail.take (j + (strL "end_of_list").length)
        (pySplitOn (strL "\n") block).foldl
          (fun acc line =>
            let l := pyStrip line
            if (strL "function(").isPrefixOf l
                || (strL "relation(").isPrefixOf l then
              acc ++ strL "\n" ++ l
            else acc)
          (pyStrip block)
      else []

/-- `Mace4Wrapper._parse_model`. -/
def mace4_parse_model (output : Str) : Mace4Model :=
  { domain_size := mace4_domain_size_fold output
    raw_interpretation := mace4_raw_interpretation output }

/-- The structured outcome dictionaries returned by
`Mace4Wrapper._run_mace4`, one constructor per `return` site. -/
inductive MResult where
  | model_found (model : Mace4Model) (complete_output : Str)
  | no_model_found (complete_output : Str)
  | errorFatal (error : Str)
  | unknown (output error : Str)
  | timeoutRes (reason : Str)
  | errorExn (reason : Str)
deriving DecidableEq

/-- The `"result"` field of the returned Mace4 dictionary. -/
def MResult.resultTag : MResult → Str
  | .model_found .. => strL "model_found"
  | .no_model_found _ => strL "no_model_found"
  | .errorFatal _ => strL "error"
  | .unknown .. => strL "unknown"
  | .timeoutRes _ => strL "timeout"
  | .errorExn _ => strL "error"

/-- The marker-check chain of `Mace4Wrapper._run_mace4` applied to the
captured streams of a completed solver process. -/
def mace4_classify (stdout stderr : Str) : MResult :=
  if pyIn (strL "DOMAIN SIZE") stdout && pyIn (strL "interpretation(") stdout
  then
    .model_found (mace4_parse_model stdout) stdout
  else if pyIn (strL "SEARCH FAILED") stdout
      || pyIn (strL "SEARCH TERMINATED") stdout then
    .no_model_found stdout
  else if pyIn (strL "Fatal error") stderr
      || pyIn (strL "Fatal error") stdout then
    .errorFatal (if stderr = [] then stdout else stderr)
  else
    .unknown stdout stderr

/-- The `try` body of `Mace4Wrapper._run_mace4`. -/
def mace4_try_body (proc : ProcOutcome) : Except PyExn MResult :=
  match proc with
  | .completed out err => .ok (mace4_classify out err)
  | .timedOut => .error .timeoutExpired
  | .raised m => .error (.generic m)

/-- The `except subprocess.TimeoutExpired` / `except Exception as e`
handlers of `Mace4Wrapper._run_mace4`. -/
def mace4_handlers (t : Nat) : Except PyExn MResult → MResult
  | .ok r => r
  | .error .timeoutExpired =>
    .timeoutRes (strL "Model search exceeded " ++ natStrL t ++ strL " seconds")
  | .error (.generic m) => .errorExn m

/-- `Mace4Wrapper._run_mace4` without the `finally` cleanup. -/
def run_mace4 (proc : ProcOutcome) (t : Nat) : MResult :=
  mace4_handlers t (mace4_try_body proc)

/-- `Mace4Wrapper._run_mace4` with its `finally` cleanup
(`except (FileNotFoundError, PermissionError, OSError): pass`, which
swallows every error `unlink` can raise). -/
def run_mace4_with_cleanup (fs : TempFileState) (proc : ProcOutcome)
    (t : Nat) : MResult × TempFileState :=
  (mace4_handlers t (mace4_try_body proc), unlink_cleanup fs)

/-! ## Classifier lemmas and claims C2–C5, C10 -/

theorem pyIn_eq_false_iff {sep s : Str} :
    pyIn sep s = false ↔ firstIdx sep s = none := by
  rw [pyIn]
  cases firstIdx sep s <;> simp

theorem prover_extract_proof_of_marker {out : Str} {i : Nat}
    (h : firstIdx (strL "PROOF =") out = some i) :
    prover_extract_proof out =
      some (pyStrip (takeBeforeFirst (strL "====")
        (takeBeforeFirst (strL "PROOF =") (out.drop (i + 7))))) := by
  have hsep : strL "PROOF =" ≠ [] := by decide
  have hlen : (strL "PROOF =").length = 7 := by decide
  simp only [prover_extract_proof]
  rw [pySplitOn_getElem1 hsep, h]
  simp only [Option.map_some']
  rw [pySplitOn_headD (by decide)]
  rw [hlen]

theorem prover_extract_proof_none {out : Str}
    (h : pyIn (strL "PROOF =") out = false) :
    prover_extract_proof out = none := by
  simp only [prover_extract_proof]
  rw [pySplitOn_getElem1 (by decide), pyIn_eq_false_iff.mp h]
  simp

theorem prover_classify_proved {out err : Str} {i : Nat}
    (hTP : pyIn (strL "THEOREM PROVED") out = true)
    (hPR : firstIdx (strL "PROOF =") out = some i) :
    prover_classify out err =
      .proved (pyStrip (takeBeforeFirst (strL "====")
        (takeBeforeFirst (strL "PROOF =") (out.drop (i + 7))))) out := by
  simp only [prover_classify, hTP, if_true]
  rw [prover_extract_proof_of_marker hPR]

theorem prover_classify_exn {out err : Str}
    (hTP : pyIn (strL "THEOREM PROVED") out = true)
    (hPR : pyIn (strL "PROOF =") out = false) :
    prover_classify out err = .errorExn (strL "list index out of range") := by
  simp only [prover_classify, hTP, if_true]
  rw [prover_extract_proof_none hPR]

/-- C2 (amended): the prover-output classification applies its marker checks
in a fixed first-match-wins order — `"THEOREM PROVED"` in stdout is decided
first and never consults stderr (a stdout containing it and a `"PROOF ="`
marker is classified `proved` even when stderr contains `"Fatal error"`);
otherwise `"SEARCH FAILED"` in stdout gives `unprovable`, then
`"Fatal error"` in stderr gives the syntax error, then the unexpected-output
error.  A stdout with `"THEOREM PROVED"` but no `"PROOF ="` marker is the
one case not classified `proved`: the indexing exception makes it an
exception-derived error, still independent of stderr. -/
theorem c2_marker_priority (out err err2 : Str) :
    (pyIn (strL "THEOREM PROVED") out = true →
      prover_classify out err = prover_classify out err2)
  ∧ (pyIn (strL "THEOREM PROVED") out = true →
     pyIn (strL "PROOF =") out = true →
      ∃ p, prover_classify out err = .proved p out)
  ∧ (pyIn (strL "THEOREM PROVED") out = false →
     pyIn (strL "SEARCH FAILED") out = true →
      prover_classify out err = .unprovable out)
  ∧ (pyIn (strL "THEOREM PROVED") out = false →
     pyIn (strL "SEARCH FAILED") out = false →
     pyIn (strL "Fatal error") err = true →
      prover_classify out err = .errorSyntax err)
  ∧ (pyIn (strL "THEOREM PROVED") out = false →
     pyIn (strL "SEARCH FAILED") out = false →
     pyIn (strL "Fatal error") err = false →
      prover_classify out err = .errorUnexpected out err) := by
  refine ⟨?_, ?_, ?_, ?_, ?_⟩
  · intro hTP
    simp only [prover_classify, hTP, if_true]
  · intro hTP hPR
    obtain ⟨i, hi⟩ := Option.isSome_iff_exists.mp (by simpa [pyIn] using hPR)
    exact ⟨_, prover_classify_proved hTP hi⟩
  · intro hTP hSF
    simp [prover_classify, hTP, hSF]
  · intro hTP hSF hFE
    simp [prover_classify, hTP, hSF, hFE]
  · intro hTP hSF hFE
    simp [prover_classify, hTP, hSF, hFE]

/-- C2 witness: a stdout containing both `"THEOREM PROVED"` and a proof
section is classified `proved` even with `"Fatal error"` in stderr, and the
classification ignores stderr entirely in that case. -/
theorem c2_marker_priority_witness :
    (prover_classify (strL "THEOREM PROVED\nPROOF = x\n====")
        (strL "Fatal error") =
      prover_classify (strL "THEOREM PROVED\nPROOF = x\n====") [])
  ∧ ∃ p, prover_classify (strL "THEOREM PROVED\nPROOF = x\n====")
        (strL "Fatal error") =
      .proved p (strL "THEOREM PROVED\nPROOF = x\n====") := by
  have h := c2_marker_priority (strL "THEOREM PROVED\nPROOF = x\n====")
    (strL "Fatal error") []
  exact ⟨h.1 (by decide), h.2.1 (by decide) (by decide)⟩

/-- C2 counterexample: the claim "any stdout containing THEOREM PROVED is
classified proved" fails — a stdout containing `"THEOREM PROVED"` but no
`"PROOF ="` marker is classified as the exception-derived error, here with
`"Fatal error"` in stderr. -/
theorem c2_counterexample :
    pyIn (strL "THEOREM PROVED") (strL "THEOREM PROVED") = true
  ∧ pyIn (strL "Fatal error") (strL "Fatal error") = true
  ∧ prover_classify (strL "THEOREM PROVED") (strL "Fatal error") =
      .errorExn (strL "list index out of range") :=
  ⟨by decide, by decide, prover_classify_exn (by decide) (by decide)⟩

/-- C3 (amended): when stdout contains `"THEOREM PROVED"`, the outcome is
the exception-derived error exactly when the `"PROOF ="` marker is absent;
when `"PROOF ="` occurs (first occurrence at index `i`), the outcome is
`proved` with proof equal to the text after that marker — cut at the next
`"PROOF ="` occurrence if any, then at its first `"===="` if any — trimmed
of surrounding whitespace.  In particular a missing `"===="` delimiter does
not produce an error: the trimmed remainder becomes the proof. -/
theorem c3_proof_extraction (out err : Str) :
    (pyIn (strL "THEOREM PROVED") out = true →
     pyIn (strL "PROOF =") out = false →
      prover_classify out err = .errorExn (strL "list index out of range"))
  ∧ (∀ i : Nat, pyIn (strL "THEOREM PROVED") out = true →
     firstIdx (strL "PROOF =") out = some i →
      prover_classify out err =
        .proved (pyStrip (takeBeforeFirst (strL "====")
          (takeBeforeFirst (strL "PROOF =") (out.drop (i + 7))))) out) := by
  exact ⟨fun hTP hPR => prover_classify_exn hTP hPR,
         fun i hTP hi => prover_classify_proved hTP hi⟩

/-- C3 witness: with both delimiters present the proof is the text strictly
between `"PROOF ="` and `"===="`, trimmed. -/
theorem c3_proof_extraction_witness :
    prover_classify (strL "THEOREM PROVED PROOF = ab ==== rest") [] =
      .proved (strL "ab") (strL "THEOREM PROVED PROOF = ab ==== rest") := by
  have h := (c3_proof_extraction
    (strL "THEOREM PROVED PROOF = ab ==== rest") []).2 15
    (by decide) (by decide)
  have he : pyStrip (takeBeforeFirst (strL "====")
      (takeBeforeFirst (strL "PROOF =")
        ((strL "THEOREM PROVED PROOF = ab ==== rest").drop (15 + 7)))) =
      strL "ab" := by decide
  rw [he] at h
  exact h

/-- C3 counterexample: a stdout whose proof section has no closing `"===="`
delimiter is still classified `proved`, with the trimmed tail as proof — not
`error` as the claim requires. -/
theorem c3_counterexample :
    pyIn (strL "====") (strL "THEOREM PROVED PROOF = abc") = false
  ∧ prover_classify (strL "THEOREM PROVED PROOF = abc") [] =
      .proved (strL "abc") (strL "THEOREM PROVED PROOF = abc") := by
  refine ⟨by decide, ?_⟩
  have h := @prover_classify_proved (strL "THEOREM PROVED PROOF = abc")
    [] 15 (by decide) (by decide)
  have he : pyStrip (takeBeforeFirst (strL "====")
      (takeBeforeFirst (strL "PROOF =")
        ((strL "THEOREM PROVED PROOF = abc").drop (15 + 7)))) =
      strL "abc" := by decide
  rw [he] at h
  exact h

/-- Line 178 of server.py:
`is_valid = "Fatal error" not in str(results.get("error", ""))`. -/
def check_well_formed_valid (r : PResult) : Bool :=
  !(pyIn (strL "Fatal error") r.errorField)

/-- C4: on every exit path of both runners — classification of a completed
process, timeout expiry, or an unexpected exception — the returned outcome
is exactly the outcome computed before cleanup, the `finally` cleanup is
executed, a failing deletion is swallowed without altering the outcome, and
whenever the deletion does not raise, the transient input file is gone. -/
theorem c4_cleanup_guarantee (fs : TempFileState) (proc : ProcOutcome)
    (t : Nat) :
    (run_prover_with_cleanup fs proc t).1 = run_prover proc t
  ∧ (run_mace4_with_cleanup fs proc t).1 = run_mace4 proc t
  ∧ (run_prover_with_cleanup fs proc t).2 = unlink_cleanup fs
  ∧ (run_mace4_with_cleanup fs proc t).2 = unlink_cleanup fs
  ∧ (fs.unlinkRaises = false →
      (run_prover_with_cleanup fs proc t).2.present = false
    ∧ (run_mace4_with_cleanup fs proc t).2.present = false) := by
  refine ⟨rfl, rfl, rfl, rfl, fun h => ⟨?_, ?_⟩⟩ <;>
    simp [run_prover_with_cleanup, run_mace4_with_cleanup, unlink_cleanup, h]

/-- C4 witness: after a timed-out run on a present input file whose deletion
succeeds, the returned outcome is the solver outcome and the file is gone,
for both runners. -/
theorem c4_cleanup_guarantee_witness :
    (run_prover_with_cleanup ⟨true, false⟩ ProcOutcome.timedOut 60).1 =
      run_prover ProcOutcome.timedOut 60
  ∧ (run_prover_with_cleanup ⟨true, false⟩ ProcOutcome.timedOut 60).2.present
      = false
  ∧ (run_mace4_with_cleanup ⟨true, false⟩ ProcOutcome.timedOut 60).2.present
      = false := by
  have h := c4_cleanup_guarantee ⟨true, false⟩ ProcOutcome.timedOut 60
  exact ⟨h.1, (h.2.2.2.2 rfl).1, (h.2.2.2.2 rfl).2⟩

/-- C5: timeout expiry yields the `"timeout"`-tagged outcome whose reason
carries the timeout value, never an `"error"` tag; any other invocation
failure yields the `"error"`-tagged outcome with the exception text as
reason — for both the prover and the model-finder runner. -/
theorem c5_timeout_vs_error (t : Nat) (m : Str) :
    run_prover ProcOutcome.timedOut t =
      .timeoutRes (strL "Proof search exceeded " ++ natStrL t
        ++ strL " seconds")
  ∧ PResult.resultTag (run_prover ProcOutcome.timedOut t) = strL "timeout"
  ∧ run_prover (ProcOutcome.raised m) t = .errorExn m
  ∧ PResult.resultTag (run_prover (ProcOutcome.raised m) t) = strL "error"
  ∧ run_mace4 ProcOutcome.timedOut t =
      .timeoutRes (strL "Model search exceeded " ++ natStrL t
        ++ strL " seconds")
  ∧ MResult.resultTag (run_mace4 ProcOutcome.timedOut t) = strL "timeout"
  ∧ run_mace4 (ProcOutcome.raised m) t = .errorExn m
  ∧ MResult.resultTag (run_mace4 (ProcOutcome.raised m) t) = strL "error"
  ∧ strL "timeout" ≠ strL "error" := by
  refine ⟨rfl, rfl, rfl, rfl, rfl, rfl, rfl, rfl, by decide⟩

/-- C10: the check-well-formed valid flag is true exactly when
`"Fatal error"` does not occur in the stringified `error` field of the
prover result (absent fields counting as empty); consequently a timeout, an
unprovable outcome, or an exception-derived error — none of which carries an
`error` field — is reported valid. -/
theorem c10_well_formed_validity (proc : ProcOutcome) (t : Nat)
    (reason m out err : Str) :
    check_well_formed_valid (run_prover proc t) =
      !(pyIn (strL "Fatal error") (run_prover proc t).errorField)
  ∧ check_well_formed_valid (.timeoutRes reason) = true
  ∧ check_well_formed_valid (.errorExn m) = true
  ∧ check_well_formed_valid (.unprovable out) = true
  ∧ (check_well_formed_valid (.errorSyntax err) = false ↔
      pyIn (strL "Fatal error") err = true) := by
  refine ⟨rfl, rfl, rfl, rfl, ?_⟩
  simp [check_well_formed_valid, PResult.errorField]

/-! ## Claim C8: model parsing -/

theorem foldl_overwrite_eq_getLast (g : Str → Bool) (f : Str → Option Int) :
    ∀ (xs : List Str) (acc : Option Int),
      xs.foldl (fun a x => if g x then
          (match f x with | some v => some v | none => a) else a) acc
        = ((xs.filterMap (fun x => if g x then f x else none)).getLast?).or
            acc := by
  intro xs
  induction xs with
  | nil => intro acc; simp
  | cons x xs ih =>
    intro acc
    rw [List.foldl_cons, ih]
    cases hg : g x with
    | false =>
      rw [List.filterMap_cons]
      simp [hg]
    | true =>
      cases hfx : f x with
      | none =>
        rw [List.filterMap_cons]
        simp [hg, hfx]
      | some v =>
        rw [List.filterMap_cons]
        simp only [hg, hfx, if_true]
        cases hL : xs.filterMap (fun x => if g x then f x else none) with
        | nil => simp
        | cons y L2 =>
          have hsome : ∃ w, (y :: L2).getLast? = some w :=
            Option.isSome_iff_exists.mp (by simp)
          obtain ⟨w, hw⟩ := hsome
          simp [List.getLast?_cons_cons, hw]

/-- The value the domain-size loop actually computes: the parse of the final
token of the LAST line containing `"DOMAIN SIZE"` whose final token parses
as an integer (`none` when no such line parses). -/
def mace4_domain_size_last (output : Str) : Option Int :=
  (((pySplitOn (strL "\n") output).filter
      (fun l => pyIn (strL "DOMAIN SIZE") l)).filterMap
    mace4_last_token_int).getLast?

theorem mace4_domain_size_fold_eq_last (output : Str) :
    mace4_domain_size_fold output = mace4_domain_size_last output := by
  rw [mace4_domain_size_fold, mace4_domain_size_last, List.filterMap_filter]
  exact (foldl_overwrite_eq_getLast _ _ _ none).trans Option.or_none

theorem foldl_isPrefix_of_step {u : Str → Str → Str}
    (hu : ∀ acc line, acc <+: u acc line) :
    ∀ (L : List Str) (base : Str), base <+: L.foldl u base := by
  intro L
  induction L with
  | nil => intro base; exact List.prefix_refl _
  | cons x L ih => intro base; exact (hu base x).trans (ih (u base x))

/-- C8 (amended): a stdout containing both `"DOMAIN SIZE"` and
`"interpretation("` is classified `model_found` with the parsed model,
regardless of whether any domain-size parse succeeds; the model's
`domain_size` equals the integer parse of the final whitespace-delimited
token of the LAST line containing `"DOMAIN SIZE"` whose token parses (unset
when none parses, classification unaffected); and `raw_interpretation`
begins with the block from the first `"interpretation("` through the
following `"end_of_list"` inclusive, trimmed (with `function(`/`relation(`
lines appended after it). -/
theorem c8_model_found_parsing (out err : Str) :
    (pyIn (strL "DOMAIN SIZE") out = true →
     pyIn (strL "interpretation(") out = true →
      mace4_classify out err = .model_found (mace4_parse_model out) out)
  ∧ (mace4_parse_model out).domain_size = mace4_domain_size_last out
  ∧ (∀ start j, firstIdx (strL "interpretation(") out = some start →
      firstIdx (strL "end_of_list") (out.drop start) = some j →
      0 < j →
      pyStrip ((out.drop start).take (j + 11)) <+:
        (mace4_parse_model out).raw_interpretation) := by
  refine ⟨?_, ?_, ?_⟩
  · intro h1 h2
    simp [mace4_classify, h1, h2]
  · exact mace4_domain_size_fold_eq_last out
  · intro start j hs hj hjpos
    have hlen : (strL "end_of_list").length = 11 := by decide
    simp only [mace4_parse_model, mace4_raw_interpretation, hs, hj, hlen]
    rw [if_pos hjpos]
    apply foldl_isPrefix_of_step
    intro acc line
    by_cases hc : ((strL "function(").isPrefixOf (pyStrip line)
        || (strL "relation(").isPrefixOf (pyStrip line)) = true
    · simp only [hc, if_true]
      rw [List.append_assoc]
      exact List.prefix_append _ _
    · simp only [Bool.not_eq_true] at hc
      simp [hc]

/-- C8 witness: a concrete model-finder output is classified `model_found`,
its domain size is the last-successful-parse value, and the interpretation
block is a prefix of `raw_interpretation`. -/
theorem c8_model_found_parsing_witness :
    mace4_classify (strL "DOMAIN SIZE 3\ninterpretation( 2\nend_of_list") [] =
      .model_found
        (mace4_parse_model
          (strL "DOMAIN SIZE 3\ninterpretation( 2\nend_of_list"))
        (strL "DOMAIN SIZE 3\ninterpretation( 2\nend_of_list")
  ∧ (mace4_parse_model
      (strL "DOMAIN SIZE 3\ninterpretation( 2\nend_of_list")).domain_size =
      mace4_domain_size_last
        (strL "DOMAIN SIZE 3\ninterpretation( 2\nend_of_list")
  ∧ pyStrip (((strL "DOMAIN SIZE 3\ninterpretation( 2\nend_of_list").drop
        14).take (18 + 11)) <+:
      (mace4_parse_model
        (strL "DOMAIN SIZE 3\ninterpretation( 2\nend_of_list")).raw_interpretation := by
  have h := c8_model_found_parsing
    (strL "DOMAIN SIZE 3\ninterpretation( 2\nend_of_list") []
  exact ⟨h.1 (by decide) (by decide), h.2.1,
    h.2.2 14 18 (by decide) (by decide) (by decide)⟩

/-- Modelled from the spec's words, for comparison with the source
behaviour only: the domain size parsed from the FIRST line containing
`"DOMAIN SIZE"` by taking its final whitespace-delimited token as an
integer. -/
def spec_domain_size_first_line (output : Str) : Option Int :=
  match ((pySplitOn (strL "\n") output).filter
      (fun l => pyIn (strL "DOMAIN SIZE") l)).head? with
  | some line => mace4_last_token_int line
  | none => none

/-- C8 counterexample: on an output with two `"DOMAIN SIZE"` lines the
claim's first-line rule gives 2, but the code's loop overwrites on every
successful parse and yields 3 — the LAST line wins, not the first. -/
theorem c8_counterexample :
    pyIn (strL "DOMAIN SIZE")
      (strL "DOMAIN SIZE 2\nDOMAIN SIZE 3\ninterpretation( 2\nend_of_list")
      = true
  ∧ pyIn (strL "interpretation(")
      (strL "DOMAIN SIZE 2\nDOMAIN SIZE 3\ninterpretation( 2\nend_of_list")
      = true
  ∧ spec_domain_size_first_line
      (strL "DOMAIN SIZE 2\nDOMAIN SIZE 3\ninterpretation( 2\nend_of_list")
      = some 2
  ∧ (mace4_parse_model
      (strL "DOMAIN SIZE 2\nDOMAIN SIZE 3\ninterpretation( 2\nend_of_list")).domain_size
      = some 3 := by
  refine ⟨by decide, by decide, ?_, ?_⟩
  · simp [spec_domain_size_first_line, pySplitOn, pySplitAux, strL,
      List.isPrefixOf, pyIn, firstIdx, mace4_last_token_int, pyWsTokens,
      pyIsSpace, pyParseInt, pyParseDigitsAux]
  · simp [mace4_parse_model, mace4_domain_size_fold, pySplitOn, pySplitAux,
      strL, List.isPrefixOf, pyIn, firstIdx, mace4_last_token_int, pyWsTokens,
      pyIsSpace, pyParseInt, pyParseDigitsAux]

/-- C6 witness: for a concrete premise list and goal, the premises appear in
order, the unterminated premise gains exactly one period (ending in `.` but
not `..`), and the already-terminated premise is emitted unchanged. -/
theorem c6_input_block_termination_witness :
    (prover_create_input_lines [strL "p(a)", strL "q(b)."] (strL "r(c)"))[1]?
      = some (pyTerminate (strL "p(a)"))
  ∧ pyTerminate (strL "p(a)") = strL "p(a)" ++ strL "."
  ∧ pyEndsWith (pyTerminate (strL "p(a)")) (strL ".") = true
  ∧ pyEndsWith (pyTerminate (strL "p(a)")) (strL "..") = false
  ∧ pyTerminate (strL "q(b).") = strL "q(b)." := by
  have h := c6_input_block_termination [strL "p(a)", strL "q(b)."]
    (strL "r(c)")
  exact ⟨h.1.1 0 (by decide), (h.2.2.1 (strL "p(a)") (by decide)).1,
    (h.2.2.1 (strL "p(a)") (by decide)).2.1,
    (h.2.2.1 (strL "p(a)") (by decide)).2.2,
    h.2.2.2 (strL "q(b).") (by decide)⟩

/-! ## Claim C9: binary probing at construction time -/

/-- `LogicEngine.__init__` (server.py): the engine probes only the
platform-suffixed `prover9.exe` inside the supplied directory and raises
`FileNotFoundError` when it is absent — there is no fallback probe.
`exists?` abstracts `Path.exists` over names in the prover directory. -/
def logic_engine_init (exists? : String → Bool) : Except String String :=
  if exists? "prover9.exe" then Except.ok "prover9.exe"
  else Except.error "Prover9 not found"

/-- `Mace4Wrapper.__init__` (mace4_wrapper.py): probe `mace4.exe` first,
fall back to `mace4`, and raise `FileNotFoundError` only when neither
exists. -/
def mace4_wrapper_init (exists? : String → Bool) : Except String String :=
  if exists? "mace4.exe" then Except.ok "mace4.exe"
  else if exists? "mace4" then Except.ok "mace4"
  else Except.error "Mace4 not found"

/-- C9 (amended): the Mace4 wrapper probes the platform-suffixed
`mace4.exe` and falls back to the unsuffixed `mace4`, raising only when
neither exists; the Prover9 engine, however, probes only `prover9.exe` at
construction and raises when it is absent, even when the unsuffixed
`prover9` binary exists — it has no fallback probe. -/
theorem c9_binary_probing (e : String → Bool) :
    (e "mace4.exe" = true → mace4_wrapper_init e = Except.ok "mace4.exe")
  ∧ (e "mace4.exe" = false → e "mace4" = true →
      mace4_wrapper_init e = Except.ok "mace4")
  ∧ (e "mace4.exe" = false → e "mace4" = false →
      mace4_wrapper_init e = Except.error "Mace4 not found")
  ∧ (e "prover9.exe" = true → logic_engine_init e = Except.ok "prover9.exe")
  ∧ (e "prover9.exe" = false → e "prover9" = true →
      logic_engine_init e = Except.error "Prover9 not found") := by
  refine ⟨?_, ?_, ?_, ?_, ?_⟩
  · intro h1
    simp [mace4_wrapper_init, h1]
  · intro h1 h2
    simp [mace4_wrapper_init, h1, h2]
  · intro h1 h2
    simp [mace4_wrapper_init, h1, h2]
  · intro h1
    simp [logic_engine_init, h1]
  · intro h1 h2
    simp [logic_engine_init, h1]

/-- C9 witness: on a directory holding only the unsuffixed binaries, the
Mace4 wrapper falls back to `mace4` while the Prover9 engine raises. -/
theorem c9_binary_probing_witness :
    mace4_wrapper_init (fun s => s == "prover9" || s == "mace4") =
      Except.ok "mace4"
  ∧ logic_engine_init (fun s => s == "prover9" || s == "mace4") =
      Except.error "Prover9 not found" := by
  have h := c9_binary_probing (fun s => s == "prover9" || s == "mace4")
  exact ⟨h.2.1 (by decide) (by decide), h.2.2.2.2 (by decide) (by decide)⟩

/-- C9 counterexample: with the unsuffixed `prover9` present but
`prover9.exe` absent, the claim requires the probe to fall back and
succeed, but `LogicEngine.__init__` raises its binary-not-found error. -/
theorem c9_counterexample :
    (fun s => s == "prover9") "prover9" = true
  ∧ logic_engine_init (fun s => s == "prover9") =
      Except.error "Prover9 not found" := by
  exact ⟨by decide, rfl⟩

/-! ## Claim C7: the syntax validator's reserved-name check

`SyntaxValidator.validate` resets its accumulators, strips trailing periods,
and runs the balanced-parenthesis, quantifier, operator, naming and
common-mistake checks; `is_valid` is `len(errors) == 0`.  Only the checks
that can contribute ERRORS are modelled (`_check_operators` and the other
omitted checks produce warnings only, which never affect `is_valid`; the
iteration order of the `QUANTIFIERS` set only permutes errors between the
two quantifiers and cannot affect emptiness). -/

/-- The scan of `_check_balanced_parens`: `stack` is the list of open-paren
positions, most recent first (so Python's `stack[0]` is its last element);
closing-paren errors are emitted in scan order and the single opening-paren
error, if any, after the scan. -/
def parenScanErrors : Str → Nat → List Nat → List Str
  | [], _, stack =>
    match stack.getLast? with
    | some p =>
      [strL "Unmatched opening parenthesis at position " ++ natStrL p]
    | none => []
  | c :: rest, i, stack =>
    if c = '(' then parenScanErrors rest (i + 1) (i :: stack)
    else if c = ')' then
      match stack with
      | [] => (strL "Unmatched closing parenthesis at position " ++ natStrL i)
          :: parenScanErrors rest (i + 1) []
      | _ :: stack2 => parenScanErrors rest (i + 1) stack2
    else parenScanErrors rest (i + 1) stack

/-- `_check_balanced_parens` restricted to its error output. -/
def check_balanced_parens (f : Str) : List Str := parenScanErrors f 0 []

/-- `re.finditer(rf"\b{quantifier}\s+(\w+)", formula)`: matches of the
quantifier word at a word boundary followed by whitespace and a variable;
returns `(var, remainder-after-match)` pairs.  Scanning resumes after each
match (finditer's non-overlapping semantics); `prevW` records whether the
previous character was a word character (for the `\b` boundary). -/
def quantScan (q : Str) : Str → Bool → List (Str × Str)
  | [], _ => []
  | c :: rest, prevW =>
    if hq : q.isPrefixOf (c :: rest) = true ∧ prevW = false ∧ q ≠ [] then
      let after := (c :: rest).drop q.length
      let spaces := after.takeWhile pyIsSpace
      let var := (after.dropWhile pyIsSpace).takeWhile pyIsWordChar
      if spaces ≠ [] ∧ var ≠ [] then
        let rem := (after.dropWhile pyIsSpace).drop var.length
        (var, rem) :: quantScan q rem true
      else
        quantScan q rest (pyIsWordChar c)
    else
      quantScan q rest (pyIsWordChar c)
termination_by s _ => s.length
decreasing_by
  · have h1 : q.length ≤ (c :: rest).length :=
      (List.isPrefixOf_iff_prefix.mp hq.1).length_le
    have h2 : 0 < q.length := List.length_pos.mpr hq.2.2
    have h3 : (((c :: rest).drop q.length).dropWhile pyIsSpace).length ≤
        ((c :: rest).drop q.length).length :=
      (List.dropWhile_sublist pyIsSpace).length_le
    simp only [List.length_drop, List.length_cons] at *
    omega
  · simp [Nat.lt_succ_self]
  · simp [Nat.lt_succ_self]

/-- The error branch of `_check_quantifiers` for one quantifier: the text
after the match, `lstrip`ped, must begin with `(`. -/
def check_quantifier_errors_for (q : Str) (f : Str) : List Str :=
  (quantScan q f false).filterMap (fun m =>
    match pyLstrip m.2 with
    | '(' :: _ => none
    | _ => some (strL "Quantifier '" ++ q ++ strL " " ++ m.1 ++
        strL "' must be followed by a formula in parentheses"))

/-- `_check_quantifiers` restricted to its error output. -/
def check_quantifiers (f : Str) : List Str :=
  check_quantifier_errors_for (strL "all") f ++
  check_quantifier_errors_for (strL "exists") f

/-- The `\s*\(` part of the naming pattern. -/
def parenFollows (s : Str) : Bool :=
  match s.dropWhile pyIsSpace with
  | '(' :: _ => true
  | _ => false

/-- `re.finditer(r"\b([a-zA-Z_][a-zA-Z0-9_]*)\s*\(", formula)`: maximal
word-character runs beginning with a letter or underscore (the `\b` forbids
a digit-prefixed run from matching its letter suffix) that are followed,
after optional whitespace, by `(`.  `cur` is the current run reversed,
`none` when the previous character was not a word character. -/
def nameScanAux : Str → Option Str → List Str
  | [], _ => []
  | c :: rest, cur =>
    if pyIsWordChar c then
      match cur with
      | some run => nameScanAux rest (some (c :: run))
      | none => nameScanAux rest (some [c])
    else
      (match cur with
       | some run =>
         let name := run.reverse
         if (name.head?.elim false (fun ch => ch.isAlpha || ch = '_'))
             && parenFollows (c :: rest) then
           [name]
         else []
       | none => []) ++ nameScanAux rest none

/-- The predicate/function names found by `_check_naming`'s pattern. -/
def nameMatches (f : Str) : List Str := nameScanAux f none

/-- `SyntaxValidator.QUANTIFIERS`. -/
def QUANTIFIERS : List Str := [strL "all", strL "exists"]

/-- `SyntaxValidator.RESERVED = QUANTIFIERS | {"true", "false",
"end_of_list"}`. -/
def RESERVED : List Str :=
  QUANTIFIERS ++ [strL "true", strL "false", strL "end_of_list"]

/-- `_check_naming` restricted to its error output: quantifier names are
skipped before the reserved-word test. -/
def check_naming (f : Str) : List Str :=
  (nameMatches f).filterMap (fun name =>
    if QUANTIFIERS.contains name then none
    else if RESERVED.contains name then
      some (strL "'" ++ name ++
        strL "' is a reserved keyword and cannot be used as a predicate/function")
    else none)

/-- `_check_common_mistakes` restricted to its error output (its other
checks produce warnings only). -/
def check_common_mistakes (f : Str) : List Str :=
  if pyIn (strL "()") f then
    [strL "Empty parentheses found - predicates and functions must have arguments"]
  else []

/-- The error list accumulated by `SyntaxValidator.validate`. -/
def validate_errors (formula : Str) : List Str :=
  check_balanced_parens (pyRstripDots formula) ++
  check_quantifiers (pyRstripDots formula) ++
  check_naming (pyRstripDots formula) ++
  check_common_mistakes (pyRstripDots formula)

/-- The `is_valid` component of `SyntaxValidator.validate`'s return value:
`len(self.errors) == 0`. -/
def validate_is_valid (formula : Str) : Bool :=
  (validate_errors formula).isEmpty

example : nameMatches (strL "all(x)") = [strL "all"] := by decide
example : nameMatches (strL "man(x) -> true(y)") =
    [strL "man", strL "true"] := by decide
example : nameMatches (strL "9bad(x)") = [] := by decide
example : nameMatches (strL "foo (x)") = [strL "foo"] := by decide

/-- C7 (amended): a formula applying one of the reserved words `true`,
`false`, `end_of_list` as a predicate/function name is reported invalid by
the validator; the reserved quantifier words `all` and `exists`, however,
are skipped by the naming check (see the counterexample) and produce no
error. -/
theorem c7_reserved_names (f : Str)
    (h : ∃ name ∈ nameMatches (pyRstripDots f),
      name ∈ [strL "true", strL "false", strL "end_of_list"]) :
    validate_is_valid f = false := by
  obtain ⟨name, hmem, hres⟩ := h
  have hq : QUANTIFIERS.contains name = false := by
    fin_cases hres <;> decide
  have hr : RESERVED.contains name = true := by
    fin_cases hres <;> decide
  have hmsg : (strL "'" ++ name ++
      strL "' is a reserved keyword and cannot be used as a predicate/function")
      ∈ check_naming (pyRstripDots f) := by
    apply List.mem_filterMap.mpr
    refine ⟨name, hmem, ?_⟩
    simp only [hq, hr, Bool.false_eq_true, if_false, if_true]
  have hne : validate_errors f ≠ [] := by
    intro hnil
    have : (strL "'" ++ name ++
        strL "' is a reserved keyword and cannot be used as a predicate/function")
        ∈ validate_errors f := by
      unfold validate_errors
      exact List.mem_append_left _ (List.mem_append_right _ hmsg)
    rw [hnil] at this
    exact List.not_mem_nil _ this
  simp [validate_is_valid, List.isEmpty_iff, hne]

/-- C7 witness: `"true(x)"` uses the reserved word `true` as a predicate
name and is reported invalid. -/
theorem c7_reserved_names_witness :
    (∃ name ∈ nameMatches (pyRstripDots (strL "true(x)")),
      name ∈ [strL "true", strL "false", strL "end_of_list"])
  ∧ validate_is_valid (strL "true(x)") = false := by
  constructor
  · exact ⟨strL "true", by decide, by decide⟩
  · exact c7_reserved_names (strL "true(x)") ⟨strL "true", by decide, by decide⟩

/-- C7 counterexample: `"all(x)"` and `"exists(x)"` apply the reserved
words `all`/`exists` as predicate names, yet the naming check skips
quantifier names before its reserved-word test and no other check fires, so
the validator reports them VALID — contradicting the claim for those two
reserved words. -/
theorem c7_counterexample :
    nameMatches (pyRstripDots (strL "all(x)")) = [strL "all"]
  ∧ validate_is_valid (strL "all(x)") = true
  ∧ validate_is_valid (strL "exists(x)") = true := by
  refine ⟨by decide, ?_, ?_⟩
  · simp [validate_is_valid, validate_errors, check_balanced_parens,
      parenScanErrors, check_quantifiers, check_quantifier_errors_for,
      quantScan, check_naming, nameMatches, nameScanAux, check_common_mistakes,
      pyRstripDots, pyIn, firstIdx, strL, List.isPrefixOf, pyIsSpace,
      pyIsWordChar, parenFollows, QUANTIFIERS, RESERVED]
  · simp [validate_is_valid, validate_errors, check_balanced_parens,
      parenScanErrors, check_quantifiers, check_quantifier_errors_for,
      quantScan, check_naming, nameMatches, nameScanAux, check_common_mistakes,
      pyRstripDots, pyIn, firstIdx, strL, List.isPrefixOf, pyIsSpace,
      pyIsWordChar, parenFollows, QUANTIFIERS, RESERVED]
